import Mathlib

/-!
Verification of the store-automation engine of the coupon-clipper repository.

The development shallowly embeds the Python sources:
* `app/services/session_manager.py` — the per-(user, store) session cache
  (`save_session`, `load_session`, `delete_session`, `rotate_session`,
  `cleanup_expired_sessions`);
* `app/services/store_discovery.py` — store analysis (`analyze_store`), the
  discovery-side login flow (`_handle_login_flow`) and `verify_login`;
* `app/services/coupon_service.py` — the clipping-side login flow with its
  post-submit verification loop, the clip loop (`_clip_coupons`) and the
  top-level `clip_coupons` result assembly.

Modelling conventions:
* The on-disk session store is a pure value: an association list of user
  directories, each holding session files and `.bak` backup files keyed by
  store id.  File contents are parsed JSON objects, or `corrupt` for a file
  that `json.load` cannot parse (for example a file truncated by a failed
  write).
* JSON values are modelled to the depth the engine inspects: scalar atoms and
  one level of object nesting, which is exactly what the `_metadata` block
  `\x7bcreated_at, user_id, store_id\x7d` needs.
* `datetime.utcnow().isoformat()` timestamps are modelled as integer epoch
  seconds; `datetime.fromisoformat` of the stored string is the identity on
  this model, and the `timedelta` comparison becomes integer comparison of
  second counts.  The literal default string `2000-01-01T00:00:00` used by
  `load_session`/`cleanup_expired_sessions` is the epoch second 946684800.
* Failures of the environment during a write (`open` failing, or `json.dump`
  raising after `open(path, "w")` has already truncated the file) are
  injected through an explicit `WriteMode` argument; directory creation
  (`os.makedirs`) is assumed to succeed.
* Browser pages are scripted observations: each AgentQL query of the source
  is answered from a record field instead of a live page.
-/

namespace CouponClipper

/-! ## Association-list primitives

The session directories on disk map names to contents; paths are unique, so
an association list with `setA` replacing the first binding and `eraseA`
removing every binding of the key is a faithful model of the directory.
-/

def lookupA {κ α : Type} [DecidableEq κ] (k : κ) : List (κ × α) → Option α
  | [] => none
  | (k2, v) :: t => if k2 = k then some v else lookupA k t

def setA {κ α : Type} [DecidableEq κ] (k : κ) (v : α) : List (κ × α) → List (κ × α)
  | [] => [(k, v)]
  | (k2, v2) :: t => if k2 = k then (k, v) :: t else (k2, v2) :: setA k v t

def eraseA {κ α : Type} [DecidableEq κ] (k : κ) (l : List (κ × α)) : List (κ × α) :=
  l.filter (fun p => decide (p.1 ≠ k))

theorem lookupA_setA_self {κ α : Type} [DecidableEq κ] (k : κ) (v : α)
    (l : List (κ × α)) : lookupA k (setA k v l) = some v := by
  induction l with
  | nil => simp [setA, lookupA]
  | cons p t ih =>
    by_cases hk : p.1 = k
    · simp [setA, hk, lookupA]
    · simp [setA, hk, lookupA, ih]

theorem lookupA_setA_ne {κ α : Type} [DecidableEq κ] (k k2 : κ) (v : α)
    (l : List (κ × α)) (hne : k2 ≠ k) :
    lookupA k2 (setA k v l) = lookupA k2 l := by
  have h1 : ¬ k = k2 := fun hh => hne hh.symm
  induction l with
  | nil => simp [setA, lookupA, h1]
  | cons p t ih =>
    by_cases hk : p.1 = k
    · have h2 : ¬ p.1 = k2 := by rw [hk]; exact h1
      simp [setA, hk, lookupA, h1, h2]
    · simp [setA, hk, lookupA, ih]

theorem lookupA_eraseA_self {κ α : Type} [DecidableEq κ] (k : κ)
    (l : List (κ × α)) : lookupA k (eraseA k l) = none := by
  induction l with
  | nil => simp [eraseA, lookupA]
  | cons p t ih =>
    by_cases hk : p.1 = k
    · simpa [eraseA, hk, lookupA] using ih
    · simpa [eraseA, hk, lookupA] using ih

theorem lookupA_eraseA_ne {κ α : Type} [DecidableEq κ] (k k2 : κ)
    (l : List (κ × α)) (hne : k2 ≠ k) :
    lookupA k2 (eraseA k l) = lookupA k2 l := by
  have h1 : ¬ k = k2 := fun hh => hne hh.symm
  induction l with
  | nil => simp [eraseA, lookupA]
  | cons p t ih =>
    by_cases hk : p.1 = k
    · simpa [eraseA, List.filter_cons, hk, lookupA, h1] using ih
    · by_cases hk2 : p.1 = k2
      · simp [eraseA, List.filter_cons, hk, lookupA, hk2, hne]
      · simpa [eraseA, List.filter_cons, hk, lookupA, hk2] using ih

/-! ## JSON values and session files -/

/-- A scalar JSON value.  ISO-8601 timestamp strings are modelled as the
integer epoch second they denote (`n`), so `datetime.fromisoformat` is the
identity on the model and datetime comparison is integer comparison. -/
inductive Atom where
  | s (v : String)
  | n (v : Int)
deriving DecidableEq

/-- A JSON value stored in a session dictionary: a scalar, or a flat object —
one level of nesting, which is the depth the engine inspects (the
`_metadata` block is a flat object). -/
inductive JVal where
  | a (v : Atom)
  | obj (fields : List (String × Atom))
deriving DecidableEq

/-- A parsed session dictionary, as handed to `save_session` and returned by
`json.load`. -/
abbrev Dict : Type := List (String × JVal)

/-- Content of one file of the session store: a JSON object that parses, or a
corrupt file (for example one truncated by a `json.dump` that raised after
`open(path, "w")` emptied it), on which `json.load` raises. -/
inductive FileData where
  | good (d : Dict)
  | corrupt
deriving DecidableEq

/-- One per-user session directory `app/sessions/{user_id}`: session files
`store_{id}_session.json` and backup files `store_{id}_session.json.bak`
(the latter are created only by `rotate_session`). -/
structure UserDir where
  sessions : List (Nat × FileData)
  baks : List (Nat × FileData)
deriving DecidableEq

/-- The whole session store `app/sessions`: one directory per user id. -/
abbrev Cache : Type := List (Nat × UserDir)

def emptyDir : UserDir := ⟨[], []⟩

def getDir (u : Nat) (c : Cache) : UserDir := (lookupA u c).getD emptyDir

/-- `os.makedirs(session_dir, exist_ok=True)`. -/
def ensureUserDir (u : Nat) (c : Cache) : Cache :=
  match lookupA u c with
  | some _ => c
  | none => setA u emptyDir c

/-- Read the session file `store_{s}_session.json` of user `u`. -/
def readFile (u s : Nat) (c : Cache) : Option FileData :=
  (lookupA u c).bind (fun d => lookupA s d.sessions)

/-- Read the backup file `store_{s}_session.json.bak` of user `u`. -/
def readBak (u s : Nat) (c : Cache) : Option FileData :=
  (lookupA u c).bind (fun d => lookupA s d.baks)

def writeFile (u s : Nat) (fd : FileData) (c : Cache) : Cache :=
  setA u { getDir u c with sessions := setA s fd (getDir u c).sessions } c

def writeBak (u s : Nat) (fd : FileData) (c : Cache) : Cache :=
  setA u { getDir u c with baks := setA s fd (getDir u c).baks } c

/-- `os.remove` of a session file; the containing directory stays. -/
def removeFile (u s : Nat) (c : Cache) : Cache :=
  setA u { getDir u c with sessions := eraseA s (getDir u c).sessions } c

def removeBak (u s : Nat) (c : Cache) : Cache :=
  setA u { getDir u c with baks := eraseA s (getDir u c).baks } c

/-! ## SessionManager (`app/services/session_manager.py`) -/

/-- Seconds in `timedelta(days=1)`. -/
def daySeconds : Int := 86400

/-- Epoch second of the default timestamp string `2000-01-01T00:00:00`. -/
def defaultCreated : Int := 946684800

/-- The `_metadata` block that `save_session` adds to the dictionary:
`created_at` (modelled epoch second of `datetime.utcnow().isoformat()`),
`user_id`, `store_id`. -/
def metaVal (now : Int) (u s : Nat) : JVal :=
  .obj [("created_at", .n now), ("user_id", .n u), ("store_id", .n s)]

/-- How the environment behaves during `save_session`'s write:
* `ok` — the write succeeds;
* `failOpen` — `open(session_path, "w")` raises, the file keeps its prior
  content;
* `failDump` — `open` succeeds (truncating the file) and `json.dump` then
  raises, leaving the file corrupt.
`os.makedirs`, which precedes the write, is assumed to succeed. -/
inductive WriteMode where
  | ok
  | failOpen
  | failDump
deriving DecidableEq

/-- `SessionManager.save_session`.  Creates the user directory, mutates the
caller's dictionary in place by setting the `_metadata` entry, then writes
the mutated dictionary to `store_{s}_session.json`.  Any exception is caught
and turned into a `False` return.  Returns (return value, new store state,
the caller's dictionary after the call). -/
def saveSession (now : Int) (u s : Nat) (data : Dict) (mode : WriteMode)
    (c : Cache) : Bool × Cache × Dict :=
  let c1 := ensureUserDir u c
  let data2 := setA "_metadata" (metaVal now u s) data
  match mode with
  | .ok => (true, writeFile u s (.good data2) c1, data2)
  | .failOpen => (false, c1, data2)
  | .failDump => (false, writeFile u s .corrupt c1, data2)

/-- Extraction of the creation timestamp in `load_session` and
`cleanup_expired_sessions`:
`session_data.get("_metadata", dict()).get("created_at", default)` followed by
`datetime.fromisoformat`.  `none` models the paths on which the Python code
raises (a `_metadata` value that is not an object, or a `created_at` value
that is not a timestamp string); a missing key falls back to the default
`2000-01-01T00:00:00`. -/
def parseCreated (d : Dict) : Option Int :=
  match lookupA "_metadata" d with
  | none => some defaultCreated
  | some (.obj m) =>
    match lookupA "created_at" m with
    | none => some defaultCreated
    | some (.n t) => some t
    | some (.s _) => none
  | some (.a _) => none

def parseCreatedOfFile : FileData → Option Int
  | .good d => parseCreated d
  | .corrupt => none

/-- `datetime.utcnow() - created_at > timedelta(days=maxAgeDays)`. -/
def sessExpired (now maxAgeDays t : Int) : Bool := now - t > maxAgeDays * daySeconds

/-- `SessionManager.delete_session`: remove the file if it exists. -/
def deleteSession (u s : Nat) (c : Cache) : Bool × Cache :=
  match readFile u s c with
  | some _ => (true, removeFile u s c)
  | none => (true, c)

/-- `SessionManager.load_session`.  Missing file → `None`; unparseable file →
exception caught → `None`; record older than 7 days → delete it and return
`None`; otherwise return the parsed dictionary.  A record whose `_metadata`
block itself is malformed raises before the age check and is *not* deleted. -/
def loadSession (now : Int) (u s : Nat) (c : Cache) : Option Dict × Cache :=
  match readFile u s c with
  | none => (none, c)
  | some .corrupt => (none, c)
  | some (.good d) =>
    match parseCreated d with
    | none => (none, c)
    | some t =>
      if sessExpired now 7 t then (none, (deleteSession u s c).2)
      else (some d, c)

/-- One user directory's pass of `cleanup_expired_sessions`: each session
file is parsed; files on which parsing raises are skipped (kept); parsed
files older than the threshold are removed and counted.  Returns (remaining
session files, number removed). -/
def cleanupUser (now : Int) (maxAgeDays : Int) :
    List (Nat × FileData) → List (Nat × FileData) × Nat
  | [] => ([], 0)
  | (sid, fd) :: rest =>
    let r := cleanupUser now maxAgeDays rest
    match parseCreatedOfFile fd with
    | none => ((sid, fd) :: r.1, r.2)
    | some t =>
      if sessExpired now maxAgeDays t then (r.1, r.2 + 1)
      else ((sid, fd) :: r.1, r.2)

/-- `SessionManager.cleanup_expired_sessions`: every user directory is
swept; after the sweep a directory from which `iterdir` yields nothing
(no session files and no backup files) is removed.  Returns (new store
state, count of removed records). -/
def cleanupExpired (now : Int) (maxAgeDays : Int) : Cache → Cache × Nat
  | [] => ([], 0)
  | (uid, dir) :: rest =>
    let su := cleanupUser now maxAgeDays dir.sessions
    let r := cleanupExpired now maxAgeDays rest
    if su.1.isEmpty && dir.baks.isEmpty then (r.1, su.2 + r.2)
    else ((uid, ⟨su.1, dir.baks⟩) :: r.1, su.2 + r.2)

/-- `SessionManager.rotate_session`.  If the session file exists it is copied
to `{path}.bak`; then `save_session` writes the replacement; on a `True`
return any backup file is removed.  The `except` branch that would move the
backup back is unreachable for write failures, because `save_session`
catches its own exceptions and returns `False` instead of raising; the model
therefore never restores the backup. -/
def rotateSession (now : Int) (u s : Nat) (newData : Dict) (mode : WriteMode)
    (c : Cache) : Bool × Cache × Dict :=
  let c1 := match readFile u s c with
    | some fd => writeBak u s fd c
    | none => c
  let r := saveSession now u s newData mode c1
  let c2 := if r.1 && (readBak u s r.2.1).isSome then removeBak u s r.2.1 else r.2.1
  (r.1, c2, r.2.2)

/-! ## Session-manager helper lemmas -/

theorem readFile_writeFile_self (u s : Nat) (fd : FileData) (c : Cache) :
    readFile u s (writeFile u s fd c) = some fd := by
  simp [readFile, writeFile, lookupA_setA_self]

theorem readFile_removeFile_self (u s : Nat) (c : Cache) :
    readFile u s (removeFile u s c) = none := by
  simp [readFile, removeFile, lookupA_setA_self, lookupA_eraseA_self]

theorem saveSession_ok_cache (now : Int) (u s : Nat) (data : Dict) (c : Cache) :
    (saveSession now u s data .ok c).2.1
      = writeFile u s (.good (setA "_metadata" (metaVal now u s) data))
          (ensureUserDir u c) := rfl

theorem parseCreated_setA_meta (now : Int) (u s : Nat) (data : Dict) :
    parseCreated (setA "_metadata" (metaVal now u s) data) = some now := by
  simp [parseCreated, lookupA_setA_self, metaVal, lookupA]

/-! ## Claim theorems about the session cache -/

/-- C3 counterexample.  Saving the empty state and immediately loading it
back does not return the state that was passed to `save`: the loaded
dictionary carries the `_metadata` entry that `save_session` injected, so it
differs from the saved empty dictionary. -/
theorem save_load_returns_metadata_not_input :
    (saveSession 100 1 2 ([] : Dict) .ok []).1 = true ∧
    (loadSession 100 1 2 (saveSession 100 1 2 ([] : Dict) .ok []).2.1).1
      = some [("_metadata", metaVal 100 1 2)] ∧
    (loadSession 100 1 2 (saveSession 100 1 2 ([] : Dict) .ok []).2.1).1
      ≠ some ([] : Dict) := by
  refine ⟨rfl, by decide, by decide⟩

/-- C3 (amended).  For every (user, store) pair, every prior cache state and
every session state, `save` followed by `load` within the 7-day TTL succeeds
and returns the saved state with exactly the `_metadata` entry set by
`save`; every other entry round-trips unchanged, and the load leaves the
cache untouched. -/
theorem save_then_load_roundtrip (c : Cache) (u s : Nat) (data : Dict)
    (now later : Int) (httl : later - now ≤ 7 * daySeconds) :
    (saveSession now u s data .ok c).1 = true ∧
    (loadSession later u s (saveSession now u s data .ok c).2.1).1
      = some (setA "_metadata" (metaVal now u s) data) ∧
    (loadSession later u s (saveSession now u s data .ok c).2.1).2
      = (saveSession now u s data .ok c).2.1 ∧
    ∀ k, k ≠ "_metadata" →
      lookupA k (setA "_metadata" (metaVal now u s) data) = lookupA k data := by
  have hread : readFile u s (saveSession now u s data .ok c).2.1
      = some (.good (setA "_metadata" (metaVal now u s) data)) := by
    rw [saveSession_ok_cache]; exact readFile_writeFile_self _ _ _ _
  have hexp : sessExpired later 7 now = false := by
    simp only [sessExpired, daySeconds, decide_eq_false_iff_not, not_lt]
    simp only [daySeconds] at httl
    omega
  refine ⟨rfl, ?_, ?_, fun k hk => lookupA_setA_ne _ _ _ _ hk⟩
  · simp [loadSession, hread, parseCreated_setA_meta, hexp]
  · simp [loadSession, hread, parseCreated_setA_meta, hexp]

theorem save_then_load_roundtrip_witness :
    (loadSession 200 1 2
        (saveSession 100 1 2 [("cookie", .a (.s "abc"))] .ok []).2.1).1
      = some (setA "_metadata" (metaVal 100 1 2) [("cookie", .a (.s "abc"))]) ∧
    lookupA "cookie" (setA "_metadata" (metaVal 100 1 2) [("cookie", .a (.s "abc"))])
      = lookupA "cookie" [("cookie", JVal.a (.s "abc"))] := by
  have h := save_then_load_roundtrip [] 1 2 [("cookie", .a (.s "abc"))] 100 200 (by decide)
  exact ⟨h.2.1, h.2.2.2 "cookie" (by decide)⟩

/-- C4.  Loading a record strictly older than 7 days returns absence and
deletes the record, so an immediately repeated load is also absent; loading
the same record while it is at most 7 days old returns it and leaves the
cache unchanged. -/
theorem load_expired_deletes_no_resurrection (c : Cache) (u s : Nat)
    (d : Dict) (t now1 now2 : Int)
    (hfile : readFile u s c = some (.good d))
    (hmeta : parseCreated d = some t)
    (hexp : now1 - t > 7 * daySeconds)
    (hfresh : now2 - t ≤ 7 * daySeconds) :
    (loadSession now1 u s c).1 = none ∧
    (loadSession now1 u s c).2 = removeFile u s c ∧
    (loadSession now1 u s (loadSession now1 u s c).2).1 = none ∧
    (loadSession now2 u s c).1 = some d ∧
    (loadSession now2 u s c).2 = c := by
  have hexpb : sessExpired now1 7 t = true := by
    simp only [sessExpired, daySeconds, decide_eq_true_eq]
    simp only [daySeconds] at hexp
    omega
  have hfreshb : sessExpired now2 7 t = false := by
    simp only [sessExpired, daySeconds, decide_eq_false_iff_not, not_lt]
    simp only [daySeconds] at hfresh
    omega
  have h1 : loadSession now1 u s c = (none, removeFile u s c) := by
    simp [loadSession, hfile, hmeta, hexpb, deleteSession]
  refine ⟨by rw [h1], by rw [h1], ?_, ?_, ?_⟩
  · rw [h1]; simp [loadSession, readFile_removeFile_self]
  · simp [loadSession, hfile, hmeta, hfreshb]
  · simp [loadSession, hfile, hmeta, hfreshb]

theorem load_expired_deletes_witness :
    (loadSession 800000 1 2 [(1, (⟨[(2, .good [("_metadata", metaVal 100 1 2)])], []⟩ : UserDir))]).1
      = none ∧
    (loadSession 800000 1 2
        (loadSession 800000 1 2
          [(1, (⟨[(2, .good [("_metadata", metaVal 100 1 2)])], []⟩ : UserDir))]).2).1
      = none ∧
    (loadSession 200 1 2 [(1, (⟨[(2, .good [("_metadata", metaVal 100 1 2)])], []⟩ : UserDir))]).1
      = some [("_metadata", metaVal 100 1 2)] := by
  have h := load_expired_deletes_no_resurrection
    [(1, (⟨[(2, .good [("_metadata", metaVal 100 1 2)])], []⟩ : UserDir))] 1 2
    [("_metadata", metaVal 100 1 2)] 100 800000 200
    (by decide) (by decide) (by decide) (by decide)
  exact ⟨h.1, h.2.2.1, h.2.2.2.1⟩

/-- C2 evaluation at the failing input.  `rotate_session` over an existing
valid record, when `json.dump` fails after `open(path, "w")` has truncated
the file: the call returns `False`, but the session file is left corrupt
(not equal to, nor readable as, its prior content) and the backup — which
still holds the prior record — is not restored, because the restore branch
of `rotate_session` is unreachable: `save_session` catches its own
exceptions instead of raising. -/
theorem rotate_write_failure_corrupts_record :
    (rotateSession 200 1 2 [("k", .a (.s "new"))] .failDump
        [(1, (⟨[(2, .good [("cookie", .a (.s "abc")), ("_metadata", metaVal 100 1 2)])], []⟩ : UserDir))]).1
      = false ∧
    readFile 1 2 (rotateSession 200 1 2 [("k", .a (.s "new"))] .failDump
        [(1, (⟨[(2, .good [("cookie", .a (.s "abc")), ("_metadata", metaVal 100 1 2)])], []⟩ : UserDir))]).2.1
      = some .corrupt ∧
    readFile 1 2 (rotateSession 200 1 2 [("k", .a (.s "new"))] .failDump
        [(1, (⟨[(2, .good [("cookie", .a (.s "abc")), ("_metadata", metaVal 100 1 2)])], []⟩ : UserDir))]).2.1
      ≠ some (.good [("cookie", .a (.s "abc")), ("_metadata", metaVal 100 1 2)]) ∧
    (loadSession 200 1 2 (rotateSession 200 1 2 [("k", .a (.s "new"))] .failDump
        [(1, (⟨[(2, .good [("cookie", .a (.s "abc")), ("_metadata", metaVal 100 1 2)])], []⟩ : UserDir))]).2.1).1
      = none ∧
    readBak 1 2 (rotateSession 200 1 2 [("k", .a (.s "new"))] .failDump
        [(1, (⟨[(2, .good [("cookie", .a (.s "abc")), ("_metadata", metaVal 100 1 2)])], []⟩ : UserDir))]).2.1
      = some (.good [("cookie", .a (.s "abc")), ("_metadata", metaVal 100 1 2)]) := by
  refine ⟨rfl, by decide, by decide, by decide, by decide⟩

/-- C2 companion: on a successful write, `rotate` discards the backup, and
when `open` itself fails the prior record does survive — the corruption of
`rotate_write_failure_corrupts_record` is specific to a failure after the
file has been truncated. -/
theorem readBak_writeBak_self (u s : Nat) (fd : FileData) (c : Cache) :
    readBak u s (writeBak u s fd c) = some fd := by
  simp [readBak, writeBak, lookupA_setA_self]

theorem readBak_writeFile (u s : Nat) (fd : FileData) (c : Cache) :
    readBak u s (writeFile u s fd c) = readBak u s c := by
  simp only [readBak, writeFile, lookupA_setA_self]
  cases h : lookupA u c <;> simp [getDir, h, lookupA]

theorem readBak_ensureUserDir (u s : Nat) (c : Cache) :
    readBak u s (ensureUserDir u c) = readBak u s c := by
  unfold ensureUserDir
  cases h : lookupA u c <;>
    simp [readBak, h, lookupA_setA_self, emptyDir, lookupA]

theorem readBak_removeBak_self (u s : Nat) (c : Cache) :
    readBak u s (removeBak u s c) = none := by
  simp [readBak, removeBak, lookupA_setA_self, lookupA_eraseA_self]

theorem readFile_removeBak (u s : Nat) (c : Cache) :
    readFile u s (removeBak u s c) = readFile u s c := by
  simp only [readFile, removeBak, lookupA_setA_self]
  cases h : lookupA u c <;> simp [getDir, h, lookupA]

theorem rotate_ok_discards_backup (now : Int) (u s : Nat) (d newData : Dict)
    (c : Cache) (hfile : readFile u s c = some (.good d)) :
    (rotateSession now u s newData .ok c).1 = true ∧
    readBak u s (rotateSession now u s newData .ok c).2.1 = none ∧
    readFile u s (rotateSession now u s newData .ok c).2.1
      = some (.good (setA "_metadata" (metaVal now u s) newData)) := by
  have hb2 : readBak u s (saveSession now u s newData .ok (writeBak u s (.good d) c)).2.1
      = some (.good d) := by
    rw [saveSession_ok_cache, readBak_writeFile, readBak_ensureUserDir,
      readBak_writeBak_self]
  have h1 : (saveSession now u s newData .ok (writeBak u s (.good d) c)).1 = true := rfl
  have hcache : (rotateSession now u s newData .ok c).2.1
      = removeBak u s (saveSession now u s newData .ok (writeBak u s (.good d) c)).2.1 := by
    simp only [rotateSession, hfile, hb2, h1, Option.isSome_some, Bool.and_self, if_true]
  refine ⟨rfl, ?_, ?_⟩
  · rw [hcache, readBak_removeBak_self]
  · rw [hcache, readFile_removeBak, saveSession_ok_cache]
    exact readFile_writeFile_self _ _ _ _

theorem rotate_ok_discards_backup_witness :
    (rotateSession 200 1 2 [("k", .a (.s "new"))] .ok
        [(1, (⟨[(2, .good [("x", .a (.n 5))])], []⟩ : UserDir))]).1 = true ∧
    readBak 1 2 (rotateSession 200 1 2 [("k", .a (.s "new"))] .ok
        [(1, (⟨[(2, .good [("x", .a (.n 5))])], []⟩ : UserDir))]).2.1 = none := by
  have h := rotate_ok_discards_backup 200 1 2 [("x", .a (.n 5))] [("k", .a (.s "new"))]
    [(1, (⟨[(2, .good [("x", .a (.n 5))])], []⟩ : UserDir))] (by decide)
  exact ⟨h.1, h.2.1⟩

/-- C10.  `save_session` mutates the caller's dictionary in place: after the
call — whatever the outcome of the write — the dictionary holds a
`_metadata` entry with `created_at`, `user_id` and `store_id`, and every
other entry is unchanged. -/
theorem save_mutates_caller_dict (now : Int) (u s : Nat) (data : Dict)
    (mode : WriteMode) (c : Cache) :
    (saveSession now u s data mode c).2.2
      = setA "_metadata" (metaVal now u s) data ∧
    lookupA "_metadata" (saveSession now u s data mode c).2.2
      = some (metaVal now u s) ∧
    ∀ k, k ≠ "_metadata" →
      lookupA k (saveSession now u s data mode c).2.2 = lookupA k data := by
  have h2 : (saveSession now u s data mode c).2.2
      = setA "_metadata" (metaVal now u s) data := by
    cases mode <;> rfl
  refine ⟨h2, ?_, fun k hk => ?_⟩
  · rw [h2]; exact lookupA_setA_self _ _ _
  · rw [h2]; exact lookupA_setA_ne _ _ _ _ hk

theorem save_mutates_caller_dict_witness :
    (saveSession 100 1 2 [("cookie", .a (.s "abc"))] .failOpen []).2.2
      = setA "_metadata" (metaVal 100 1 2) [("cookie", .a (.s "abc"))] ∧
    lookupA "cookie" (saveSession 100 1 2 [("cookie", .a (.s "abc"))] .failOpen []).2.2
      = lookupA "cookie" [("cookie", JVal.a (.s "abc"))] := by
  have h := save_mutates_caller_dict 100 1 2 [("cookie", .a (.s "abc"))] .failOpen []
  exact ⟨h.1, h.2.2 "cookie" (by decide)⟩

/-! ## Cleanup (`cleanup_expired_sessions`) -/

/-- A session file that `cleanup_expired_sessions` removes: it parses, and
its creation timestamp is older than the threshold.  Files on which parsing
raises are skipped by the `except` branch of the per-file loop. -/
def sessRemovable (now maxAgeDays : Int) (fd : FileData) : Bool :=
  match parseCreatedOfFile fd with
  | some t => sessExpired now maxAgeDays t
  | none => false

theorem lookupA_eq_none_of_not_mem {κ α : Type} [DecidableEq κ] (k : κ)
    (l : List (κ × α)) (h : k ∉ l.map Prod.fst) : lookupA k l = none := by
  induction l with
  | nil => rfl
  | cons p t ih =>
    simp only [List.map_cons, List.mem_cons, not_or] at h
    have h3 : ¬ p.1 = k := fun hh => h.1 hh.symm
    simp [lookupA, h3, ih h.2]

theorem lookupA_mem {κ α : Type} [DecidableEq κ] (k : κ) (l : List (κ × α))
    (v : α) (h : lookupA k l = some v) : (k, v) ∈ l := by
  induction l with
  | nil => simp [lookupA] at h
  | cons p t ih =>
    obtain ⟨a, b⟩ := p
    by_cases hk : a = k
    · subst hk
      simp only [lookupA, if_pos, Option.some.injEq] at h
      subst h
      exact List.mem_cons_self _ _
    · simp only [lookupA, hk, if_false] at h
      exact List.mem_cons_of_mem _ (ih h)

theorem cleanupUser_lookup_none (now m : Int) (s : Nat)
    (l : List (Nat × FileData)) (h : lookupA s l = none) :
    lookupA s (cleanupUser now m l).1 = none := by
  induction l with
  | nil => simpa [cleanupUser] using h
  | cons p t ih =>
    obtain ⟨sid, fd⟩ := p
    have h1 : ¬ sid = s := by
      intro hh
      simp [lookupA, hh] at h
    have h2 : lookupA s t = none := by simpa [lookupA, h1] using h
    cases hp : parseCreatedOfFile fd with
    | none => simp [cleanupUser, hp, lookupA, h1, ih h2]
    | some t2 =>
      by_cases he : sessExpired now m t2
      · simp [cleanupUser, hp, he, ih h2]
      · simp [cleanupUser, hp, he, lookupA, h1, ih h2]

theorem cleanupUser_count (now m : Int) (l : List (Nat × FileData)) :
    (cleanupUser now m l).2 = l.countP (fun q => sessRemovable now m q.2) := by
  induction l with
  | nil => rfl
  | cons p t ih =>
    obtain ⟨sid, fd⟩ := p
    cases hp : parseCreatedOfFile fd with
    | none => simp [cleanupUser, List.countP_cons, sessRemovable, hp, ih]
    | some t2 =>
      by_cases he : sessExpired now m t2
      · simp [cleanupUser, List.countP_cons, sessRemovable, hp, he, ih]
      · simp [cleanupUser, List.countP_cons, sessRemovable, hp, he, ih]

theorem lookupA_cleanupUser (now m : Int) (s : Nat)
    (l : List (Nat × FileData)) (hnd : (l.map Prod.fst).Nodup) :
    lookupA s (cleanupUser now m l).1 =
      match lookupA s l with
      | none => none
      | some fd =>
        match parseCreatedOfFile fd with
        | none => some fd
        | some t => if sessExpired now m t then none else some fd := by
  induction l with
  | nil => rfl
  | cons p t ih =>
    obtain ⟨sid, fd⟩ := p
    simp only [List.map_cons, List.nodup_cons] at hnd
    by_cases hs : sid = s
    · subst hs
      have hnone : lookupA sid t = none := lookupA_eq_none_of_not_mem _ _ hnd.1
      cases hp : parseCreatedOfFile fd with
      | none => simp [cleanupUser, hp, lookupA]
      | some t2 =>
        by_cases he : sessExpired now m t2
        · simp [cleanupUser, hp, he, lookupA, cleanupUser_lookup_none now m sid t hnone]
        · simp [cleanupUser, hp, he, lookupA]
    · cases hp : parseCreatedOfFile fd with
      | none => simp [cleanupUser, hp, lookupA, hs, ih hnd.2]
      | some t2 =>
        by_cases he : sessExpired now m t2
        · simp [cleanupUser, hp, he, lookupA, hs, ih hnd.2]
        · simp [cleanupUser, hp, he, lookupA, hs, ih hnd.2]

theorem cleanupExpired_lookup_none (now m : Int) (u : Nat) (c : Cache)
    (h : lookupA u c = none) : lookupA u (cleanupExpired now m c).1 = none := by
  induction c with
  | nil => simpa [cleanupExpired] using h
  | cons p t ih =>
    obtain ⟨uid, dir⟩ := p
    have h1 : ¬ uid = u := by
      intro hh
      simp [lookupA, hh] at h
    have h2 : lookupA u t = none := by simpa [lookupA, h1] using h
    by_cases hbe : ((cleanupUser now m dir.sessions).1.isEmpty && dir.baks.isEmpty) = true
    · simp [cleanupExpired, hbe, ih h2]
    · simp [cleanupExpired, hbe, lookupA, h1, ih h2]

theorem lookupA_cleanupExpired (now m : Int) (u : Nat) (c : Cache)
    (hnd : (c.map Prod.fst).Nodup) :
    lookupA u (cleanupExpired now m c).1 =
      match lookupA u c with
      | none => none
      | some dir =>
        if (cleanupUser now m dir.sessions).1.isEmpty && dir.baks.isEmpty then none
        else some ⟨(cleanupUser now m dir.sessions).1, dir.baks⟩ := by
  induction c with
  | nil => rfl
  | cons p t ih =>
    obtain ⟨uid, dir⟩ := p
    simp only [List.map_cons, List.nodup_cons] at hnd
    by_cases hu : uid = u
    · subst hu
      have hnone : lookupA uid t = none := lookupA_eq_none_of_not_mem _ _ hnd.1
      by_cases hbe : ((cleanupUser now m dir.sessions).1.isEmpty && dir.baks.isEmpty) = true
      · simp [cleanupExpired, hbe, lookupA,
          cleanupExpired_lookup_none now m uid t hnone]
      · simp [cleanupExpired, hbe, lookupA]
    · by_cases hbe : ((cleanupUser now m dir.sessions).1.isEmpty && dir.baks.isEmpty) = true
      · simp [cleanupExpired, hbe, lookupA, hu, ih hnd.2]
      · simp [cleanupExpired, hbe, lookupA, hu, ih hnd.2]

theorem cleanupExpired_count (now m : Int) (c : Cache) :
    (cleanupExpired now m c).2
      = (c.map (fun p => p.2.sessions.countP (fun q => sessRemovable now m q.2))).sum := by
  induction c with
  | nil => rfl
  | cons p t ih =>
    obtain ⟨uid, dir⟩ := p
    by_cases hbe : ((cleanupUser now m dir.sessions).1.isEmpty && dir.baks.isEmpty) = true
    · simp [cleanupExpired, hbe, cleanupUser_count, ih]
    · simp [cleanupExpired, hbe, cleanupUser_count, ih]

/-- C5.  On a cache whose directory listing has unique names,
`cleanup_expired_sessions` removes exactly the parsed session records whose
age exceeds the threshold and returns every other record unchanged; no
record appears from nowhere; a user partition is removed exactly when
nothing (no session file, no backup file) is left in it; and the returned
count is the number of removed records. -/
theorem cleanup_removes_exactly_expired (now m : Int) (c : Cache)
    (hnd : (c.map Prod.fst).Nodup)
    (hnds : ∀ p ∈ c, (p.2.sessions.map Prod.fst).Nodup) :
    (∀ u s fd t2, readFile u s c = some fd → parseCreatedOfFile fd = some t2 →
        readFile u s (cleanupExpired now m c).1
          = if sessExpired now m t2 then none else some fd) ∧
    (∀ u s, readFile u s c = none →
        readFile u s (cleanupExpired now m c).1 = none) ∧
    (∀ u dir, lookupA u c = some dir →
        (lookupA u (cleanupExpired now m c).1 = none ↔
          (cleanupUser now m dir.sessions).1 = [] ∧ dir.baks = [])) ∧
    (cleanupExpired now m c).2
      = (c.map (fun p => p.2.sessions.countP (fun q => sessRemovable now m q.2))).sum := by
  refine ⟨?_, ?_, ?_, cleanupExpired_count now m c⟩
  · intro u s fd t2 hread hparse
    cases hu : lookupA u c with
    | none => simp [readFile, hu] at hread
    | some dir =>
      have hs : lookupA s dir.sessions = some fd := by
        simpa [readFile, hu] using hread
      have hdirnd := hnds (u, dir) (lookupA_mem _ _ _ hu)
      have hlc : lookupA u (cleanupExpired now m c).1
          = if (cleanupUser now m dir.sessions).1.isEmpty && dir.baks.isEmpty then none
            else some ⟨(cleanupUser now m dir.sessions).1, dir.baks⟩ := by
        rw [lookupA_cleanupExpired now m u c hnd, hu]
      have hlu : lookupA s (cleanupUser now m dir.sessions).1
          = if sessExpired now m t2 then none else some fd := by
        rw [lookupA_cleanupUser now m s dir.sessions hdirnd, hs]
        simp [hparse]
      by_cases he : sessExpired now m t2
      · rw [if_pos he] at hlu
        by_cases hbe : ((cleanupUser now m dir.sessions).1.isEmpty && dir.baks.isEmpty) = true
        · simp only [readFile]
          rw [hlc]
          simp [hbe, he]
        · simp only [readFile]
          rw [hlc]
          simp [hbe, hlu, he]
      · rw [if_neg he] at hlu
        have hne : (cleanupUser now m dir.sessions).1 ≠ [] := by
          intro hempty
          rw [hempty] at hlu
          simp [lookupA] at hlu
        have hbe : ((cleanupUser now m dir.sessions).1.isEmpty && dir.baks.isEmpty) = false := by
          cases hq : (cleanupUser now m dir.sessions).1 with
          | nil => exact absurd hq hne
          | cons a b => simp [hq]
        simp only [readFile]
        rw [hlc]
        simp [hbe, hlu, he]
  · intro u s hread
    cases hu : lookupA u c with
    | none =>
      simp [readFile, cleanupExpired_lookup_none now m u c hu]
    | some dir =>
      have hs : lookupA s dir.sessions = none := by
        simpa [readFile, hu] using hread
      have hdirnd := hnds (u, dir) (lookupA_mem _ _ _ hu)
      have hlc : lookupA u (cleanupExpired now m c).1
          = if (cleanupUser now m dir.sessions).1.isEmpty && dir.baks.isEmpty then none
            else some ⟨(cleanupUser now m dir.sessions).1, dir.baks⟩ := by
        rw [lookupA_cleanupExpired now m u c hnd, hu]
      have hlu : lookupA s (cleanupUser now m dir.sessions).1 = none := by
        rw [lookupA_cleanupUser now m s dir.sessions hdirnd, hs]
      by_cases hbe : ((cleanupUser now m dir.sessions).1.isEmpty && dir.baks.isEmpty) = true
      · simp only [readFile]
        rw [hlc]
        simp [hbe]
      · simp only [readFile]
        rw [hlc]
        simp [hbe, hlu]
  · intro u dir hu
    have hlc : lookupA u (cleanupExpired now m c).1
        = if (cleanupUser now m dir.sessions).1.isEmpty && dir.baks.isEmpty then none
          else some ⟨(cleanupUser now m dir.sessions).1, dir.baks⟩ := by
      rw [lookupA_cleanupExpired now m u c hnd, hu]
    rw [hlc]
    by_cases hbe : ((cleanupUser now m dir.sessions).1.isEmpty && dir.baks.isEmpty) = true
    · simp only [hbe, if_true]
      simp only [Bool.and_eq_true, List.isEmpty_iff] at hbe
      simp [hbe.1, hbe.2]
    · simp only [hbe, if_false]
      simp only [Bool.and_eq_true, List.isEmpty_iff, not_and] at hbe
      constructor
      · intro hh
        exact absurd hh (by simp)
      · intro hh
        exact absurd (hbe hh.1) (by simp [hh.2])

/-- The concrete cache on which C5 is witnessed: user 1 holds one record
created at epoch second 0 (expired at observation time 1000000 with a 7-day
threshold) and one created at 999000 (fresh); user 4 holds only an expired
record, so its partition ends up empty and is removed. -/
def c5cache : Cache :=
  [(1, ⟨[(2, .good [("_metadata", metaVal 0 1 2)]),
         (3, .good [("_metadata", metaVal 999000 1 3)])], []⟩),
   (4, ⟨[(5, .good [("_metadata", metaVal 0 4 5)])], []⟩)]

theorem cleanup_removes_exactly_expired_witness :
    readFile 1 2 (cleanupExpired 1000000 7 c5cache).1 = none ∧
    readFile 1 3 (cleanupExpired 1000000 7 c5cache).1
      = some (.good [("_metadata", metaVal 999000 1 3)]) ∧
    lookupA 4 (cleanupExpired 1000000 7 c5cache).1 = none ∧
    (cleanupExpired 1000000 7 c5cache).2 = 2 := by
  have h := cleanup_removes_exactly_expired 1000000 7 c5cache (by decide) (by decide)
  refine ⟨?_, ?_, ?_, ?_⟩
  · rw [h.1 1 2 (.good [("_metadata", metaVal 0 1 2)]) 0 (by decide) (by decide)]
    decide
  · rw [h.1 1 3 (.good [("_metadata", metaVal 999000 1 3)]) 999000 (by decide) (by decide)]
    decide
  · exact (h.2.2.1 4 ⟨[(5, .good [("_metadata", metaVal 0 4 5)])], []⟩ (by decide)).mpr
      (by decide)
  · rw [h.2.2.2]
    decide

/-! ## Fallback store identifier (C6) -/

/-- Modelled from the CPython runtime semantics of the builtin `hash` on
`str`, which both `store_discovery.py` (line 345) and `coupon_service.py`
(line 423) call as `hash(str(store_config.base_url))`: since Python 3.3 the
string hash is a SipHash keyed by the per-process interpreter salt
(`PYTHONHASHSEED`), so the value is a function of the pair (process seed,
string), not of the string alone.  The model keeps the properties the
sources rely on: deterministic within one process, seed-dependent for a
non-empty string, and the empty string hashing to 0 in every process as in
CPython.  (CPython's value is a signed 64-bit integer; the model uses the
unsigned residue, which does not affect seed-dependence.) -/
def pythonStrHash (seed : Nat) (s : String) : Nat :=
  if s.data.isEmpty then 0
  else s.data.foldl (fun a c => (a * 1000003 + c.toNat + seed) % (2 ^ 64)) (seed % (2 ^ 64))

/-- `store_config.id or hash(str(store_config.base_url))` with Python
truthiness: a missing id — and also a zero id, which is falsy — falls back
to the builtin string hash of the base URL.  This value is embedded in the
session file name `store_Xid_session.json`. -/
def storeFileId (idOpt : Option Nat) (seed : Nat) (baseUrl : String) : Nat :=
  match idOpt with
  | some n => if n = 0 then pythonStrHash seed baseUrl else n
  | none => pythonStrHash seed baseUrl

/-- C6 evaluation at the failing input.  For a store with no assigned
numeric id, two program runs whose interpreters drew different hash seeds
compute different fallback identifiers for the same `base_url` — the
persisted session file name is not a function of `base_url` alone.  With an
assigned non-zero id the identifier is seed-independent. -/
theorem store_id_fallback_depends_on_process_seed :
    storeFileId none 0 "https://www.albertsons.com"
      ≠ storeFileId none 1 "https://www.albertsons.com" ∧
    (∀ seed : Nat, storeFileId (some 7) seed "https://www.albertsons.com" = 7) := by
  refine ⟨by decide, fun seed => by simp [storeFileId]⟩

/-! ## Scripted pages, URL checks and the login flows (C7, C8) -/

def lowChar (c : Char) : Char :=
  if 'A' ≤ c ∧ c ≤ 'Z' then Char.ofNat (c.toNat + 32) else c

/-- `str.lower()` restricted to ASCII, the alphabet of the URLs the sources
compare. -/
def lowerStr (s : String) : String := String.mk (s.data.map lowChar)

def leadsWith : List Char → List Char → Bool
  | [], _ => true
  | _ :: _, [] => false
  | a :: as, b :: bs => a == b && leadsWith as bs

def containsSubL (needle : List Char) : List Char → Bool
  | [] => leadsWith needle []
  | c :: t => leadsWith needle (c :: t) || containsSubL needle t

/-- Python substring test `needle in hay`. -/
def containsSub (hay needle : String) : Bool := containsSubL needle.data hay.data

/-- `any(x in current_url for x in ["/signin", "/login", "/account/sign-in"])`
on the lowercased current URL. -/
def pendingUrl (url : String) : Bool :=
  containsSub (lowerStr url) "/signin" || containsSub (lowerStr url) "/login"
    || containsSub (lowerStr url) "/account/sign-in"

/-- The header part of a `STORE_INFO_QUERY` answer: whether the sign-in
affordance is present. -/
structure HeaderObs where
  signInBtn : Bool
deriving DecidableEq

structure WelcomeObs where
  signInBtn : Bool
deriving DecidableEq

structure LoginModalObs where
  emailBox : Bool
  passwordBtn : Bool
deriving DecidableEq

structure PwModalObs where
  passwordBox : Bool
  signInBtn : Bool
deriving DecidableEq

/-- One post-submit verification attempt's observation: the current URL and
the `STORE_INFO_QUERY` answer (`none` when the header cannot be located). -/
structure VerifyObs where
  url : String
  header : Option HeaderObs
deriving DecidableEq

/-- A scripted page for a login-flow run: what each query of the flow
observes, in flow order.  `storeInfo = none` covers both an empty query
answer and an answer without a header. -/
structure LoginPage where
  storeInfo : Option HeaderObs
  welcome : Option WelcomeObs
  loginModal : Option LoginModalObs
  passwordModal : Option PwModalObs
  verify : Nat → VerifyObs

/-- `StoreCredentials` of `app/schemas/store.py`. -/
structure StoreCredentials where
  username : Option String
  email : Option String
  password : String
deriving DecidableEq

/-- An externally visible event of a login-flow run: a fill, a click, or a
`logger.error` line (the flows' `logger.info`/`logger.warning` narration is
not modelled; `logger.error` is what marks a failure with its cause). -/
inductive Act where
  | clickHeaderSignIn
  | clickWelcomeSignIn
  | fillEmail (v : Option String)
  | clickPasswordOption
  | fillPassword (v : String)
  | clickSubmit
  | logError (msg : String)
deriving DecidableEq

def Act.isErr : Act → Bool
  | .logError _ => true
  | _ => false

/-- Whether one verification attempt of the clipping-side loop succeeds: the
URL carries no login-path fragment, the header is found, and its sign-in
button is gone. -/
def verifyAccepted (o : VerifyObs) : Bool :=
  !(pendingUrl o.url) &&
    (match o.header with
     | some h => !h.signInBtn
     | none => false)

def verifyGo (obs : Nat → VerifyObs) (i : Nat) : Nat → Bool × Nat × List Nat
  | 0 => (false, 0, [])
  | fuel + 1 =>
    if verifyAccepted (obs i) then (true, 1, [])
    else
      let r := verifyGo obs (i + 1) fuel
      (r.1, r.2.1 + 1, 1000 :: r.2.2)

/-- The post-submit verification loop of `coupon_service._handle_login_flow`
(lines 245-274): `max_retries = 5`, and `wait_for_timeout(1000)` after every
attempt that neither succeeds nor exits.  Returns (result, attempts
examined, waits performed in milliseconds). -/
def couponVerifyLoop (obs : Nat → VerifyObs) : Bool × Nat × List Nat :=
  verifyGo obs 0 5

/-- `StoreDiscoveryService.verify_login`'s post-submit check (lines
328-352): a single inspection that fails when the current URL still
contains a login-path fragment and otherwise reports success.  The header
sign-in affordance is not consulted and there is no retry. -/
def discoveryVerify (o : VerifyObs) : Bool := !(pendingUrl o.url)

/-- `DynamicCouponService._handle_login_flow` on a scripted page: the
boolean the method returns, with the trace of fills, clicks and
`logger.error` calls.  Each `return False` site of the source logs a
distinct `logger.error` message, which is how the failure cause is
surfaced. -/
def couponLoginFlow (page : LoginPage) (creds : StoreCredentials) :
    Bool × List Act :=
  match page.storeInfo with
  | none => (false, [.logError "Could not find header section after retries"])
  | some hdr =>
    if !hdr.signInBtn then
      (false, [.logError "Could not find sign in button in header after retries"])
    else
      let acts1 := [Act.clickHeaderSignIn] ++
        (match page.welcome with
         | some w => if w.signInBtn then [Act.clickWelcomeSignIn] else []
         | none => [])
      match page.loginModal with
      | none => (false, acts1 ++ [.logError "Could not find login modal"])
      | some lm =>
        if !lm.emailBox then
          (false, acts1 ++ [.logError "Could not find email input field"])
        else
          let acts2 := acts1 ++ [Act.fillEmail creds.email]
          if !lm.passwordBtn then
            (false, acts2 ++ [.logError "Could not find password button"])
          else
            let acts3 := acts2 ++ [Act.clickPasswordOption]
            match page.passwordModal with
            | none => (false, acts3 ++ [.logError "Could not find password modal"])
            | some pm =>
              if !pm.passwordBox then
                (false, acts3 ++ [.logError "Could not find password input field"])
              else
                let acts4 := acts3 ++ [Act.fillPassword creds.password]
                if !pm.signInBtn then
                  (false, acts4 ++ [.logError "Could not find sign in button in password modal"])
                else
                  let acts5 := acts4 ++ [Act.clickSubmit]
                  if (couponVerifyLoop page.verify).1 then (true, acts5)
                  else
                    (false, acts5 ++
                      [.logError "Failed to verify login completion after maximum retries"])

/-- `StoreDiscoveryService._handle_login_flow` (lines 218-269) on a scripted
page: every step is individually guarded and skipped when its element is
absent; only the password modal's presence decides the returned boolean,
and no `logger.error` call occurs on the `return False` path. -/
def discoveryLoginFlow (page : LoginPage) (creds : StoreCredentials) :
    Bool × List Act :=
  let acts0 : List Act := match page.storeInfo with
    | some hdr => if hdr.signInBtn then [Act.clickHeaderSignIn] else []
    | none => []
  let acts1 := acts0 ++
    (match page.welcome with
     | some w => if w.signInBtn then [Act.clickWelcomeSignIn] else []
     | none => [])
  let acts2 := acts1 ++
    (match page.loginModal with
     | some lm =>
       (if lm.emailBox then [Act.fillEmail creds.email] else []) ++
         (if lm.passwordBtn then [Act.clickPasswordOption] else [])
     | none => [])
  match page.passwordModal with
  | none => (false, acts2)
  | some pm =>
    (true, acts2 ++ (if pm.passwordBox then [Act.fillPassword creds.password] else []) ++
      (if pm.signInBtn then [Act.clickSubmit] else []))

/-! ## Login-flow theorems (C7, C8) -/

/-- C7 counterexample.  On a page that proceeds normally up to the password
modal, which never appears, the discovery engine's `_handle_login_flow`
returns a bare `False` and emits no `logger.error` at all — in particular
no password-modal-not-found error: the failure carries no indication of its
cause. -/
theorem discovery_flow_pw_missing_emits_no_error :
    (discoveryLoginFlow ⟨some ⟨true⟩, none, some ⟨true, true⟩, none,
        fun _ => ⟨"https://www.kroger.com", none⟩⟩ ⟨none, some "user", "pw"⟩).1
      = false ∧
    ((discoveryLoginFlow ⟨some ⟨true⟩, none, some ⟨true, true⟩, none,
        fun _ => ⟨"https://www.kroger.com", none⟩⟩ ⟨none, some "user", "pw"⟩).2.filter
      Act.isErr) = [] := by
  exact ⟨rfl, rfl⟩

/-- C7 (amended).  On every page where the password modal never appears but
the earlier steps find their elements — the optional welcome modal
arbitrary: its absence is not an error and the flow proceeds past it — the
clipping engine's login flow fails and logs the password-modal-not-found
error, while the discovery engine's login flow fails with a bare `False`
and no specific error; in both flows the password is never filled and
nothing is submitted. -/
theorem pw_modal_missing_fails_without_submit
    (hdr : HeaderObs) (welcome : Option WelcomeObs) (lm : LoginModalObs)
    (verify : Nat → VerifyObs) (creds : StoreCredentials) (page : LoginPage)
    (hpage : page = ⟨some hdr, welcome, some lm, none, verify⟩)
    (hbtn : hdr.signInBtn = true) (hemail : lm.emailBox = true)
    (hpw : lm.passwordBtn = true) :
    (couponLoginFlow page creds).1 = false ∧
    Act.logError "Could not find password modal" ∈ (couponLoginFlow page creds).2 ∧
    (∀ p, Act.fillPassword p ∉ (couponLoginFlow page creds).2) ∧
    Act.clickSubmit ∉ (couponLoginFlow page creds).2 ∧
    (discoveryLoginFlow page creds).1 = false ∧
    (∀ p, Act.fillPassword p ∉ (discoveryLoginFlow page creds).2) ∧
    Act.clickSubmit ∉ (discoveryLoginFlow page creds).2 := by
  subst hpage
  cases welcome with
  | none =>
    simp [couponLoginFlow, discoveryLoginFlow, hbtn, hemail, hpw]
  | some w =>
    cases hw : w.signInBtn <;>
      simp [couponLoginFlow, discoveryLoginFlow, hbtn, hemail, hpw, hw]

theorem pw_modal_missing_fails_without_submit_witness :
    (couponLoginFlow ⟨some ⟨true⟩, none, some ⟨true, true⟩, none,
        fun _ => ⟨"https://www.kroger.com", none⟩⟩ ⟨none, some "u", "pw"⟩).1 = false ∧
    Act.logError "Could not find password modal"
      ∈ (couponLoginFlow ⟨some ⟨true⟩, none, some ⟨true, true⟩, none,
          fun _ => ⟨"https://www.kroger.com", none⟩⟩ ⟨none, some "u", "pw"⟩).2 ∧
    Act.fillPassword "pw"
      ∉ (couponLoginFlow ⟨some ⟨true⟩, none, some ⟨true, true⟩, none,
          fun _ => ⟨"https://www.kroger.com", none⟩⟩ ⟨none, some "u", "pw"⟩).2 ∧
    (discoveryLoginFlow ⟨some ⟨true⟩, none, some ⟨true, true⟩, none,
        fun _ => ⟨"https://www.kroger.com", none⟩⟩ ⟨none, some "u", "pw"⟩).1 = false := by
  have h := pw_modal_missing_fails_without_submit ⟨true⟩ none ⟨true, true⟩
    (fun _ => ⟨"https://www.kroger.com", none⟩) ⟨none, some "u", "pw"⟩ _ rfl rfl rfl rfl
  exact ⟨h.1, h.2.1, h.2.2.1 "pw", h.2.2.2.2.1⟩

theorem verifyGo_attempts_le (obs : Nat → VerifyObs) :
    ∀ f i, (verifyGo obs i f).2.1 ≤ f := by
  intro f
  induction f with
  | zero => intro i; simp [verifyGo]
  | succ f ih =>
    intro i
    by_cases ha : verifyAccepted (obs i) = true
    · simp [verifyGo, ha]
    · have hstep := ih (i + 1)
      simp [verifyGo, ha]
      omega

theorem verifyGo_true_iff (obs : Nat → VerifyObs) :
    ∀ f i, (verifyGo obs i f).1 = true
      ↔ ∃ j, j < f ∧ verifyAccepted (obs (i + j)) = true := by
  intro f
  induction f with
  | zero => intro i; simp [verifyGo]
  | succ f ih =>
    intro i
    by_cases ha : verifyAccepted (obs i) = true
    · constructor
      · intro _
        exact ⟨0, Nat.succ_pos f, by simpa using ha⟩
      · intro _
        simp [verifyGo, ha]
    · have hstep : (verifyGo obs i (f + 1)).1 = (verifyGo obs (i + 1) f).1 := by
        simp [verifyGo, ha]
      rw [hstep, ih (i + 1)]
      constructor
      · rintro ⟨j, hj, hacc⟩
        refine ⟨j + 1, by omega, ?_⟩
        have he : i + (j + 1) = i + 1 + j := by omega
        rw [he]
        exact hacc
      · rintro ⟨j, hj, hacc⟩
        cases j with
        | zero =>
          simp only [Nat.add_zero] at hacc
          exact absurd hacc ha
        | succ j =>
          refine ⟨j, by omega, ?_⟩
          have he : i + 1 + j = i + (j + 1) := by omega
          rw [he]
          exact hacc

theorem verifyGo_waits (obs : Nat → VerifyObs) :
    ∀ f i w, w ∈ (verifyGo obs i f).2.2 → w = 1000 := by
  intro f
  induction f with
  | zero => intro i w hw; simp [verifyGo] at hw
  | succ f ih =>
    intro i w hw
    by_cases ha : verifyAccepted (obs i) = true
    · simp [verifyGo, ha] at hw
    · simp [verifyGo, ha] at hw
      rcases hw with h | h
      · exact h
      · exact ih (i + 1) w h

theorem verifyAccepted_iff (o : VerifyObs) :
    verifyAccepted o = true
      ↔ (pendingUrl o.url = false ∧ o.header = some ⟨false⟩) := by
  obtain ⟨url, hd⟩ := o
  cases hd with
  | none => simp [verifyAccepted]
  | some h =>
    obtain ⟨b⟩ := h
    cases b <;> cases hp : pendingUrl url <;> simp [verifyAccepted, hp]

/-- C8 counterexample.  `verify_login` of the discovery engine reports
post-submit success on an observation whose header still shows the sign-in
affordance: its single check consults only the URL, never the header. -/
theorem discovery_verify_ignores_header :
    discoveryVerify ⟨"https://www.albertsons.com/home", some ⟨true⟩⟩ = true ∧
    (⟨"https://www.albertsons.com/home", some ⟨true⟩⟩ : VerifyObs).header
      = some ⟨true⟩ := by
  exact ⟨by decide, rfl⟩

/-- C8 (amended).  The clipping engine's post-submit verification makes at
most 5 attempts, waits 1000 ms after every failed attempt, rejects as
pending any attempt whose URL contains a login-path fragment, succeeds
exactly when some attempt within the budget sees a located header without
the sign-in affordance, and on exhaustion the flow fails logging the
verification-timeout error.  The discovery engine's `verify_login` instead
performs one check that succeeds exactly when the URL carries no login-path
fragment, without consulting the header. -/
theorem post_submit_verification (obs : Nat → VerifyObs) (o : VerifyObs)
    (hdr : HeaderObs) (welcome : Option WelcomeObs) (lm : LoginModalObs)
    (pm : PwModalObs) (creds : StoreCredentials) (page : LoginPage)
    (hpage : page = ⟨some hdr, welcome, some lm, some pm, obs⟩)
    (hbtn : hdr.signInBtn = true) (hemail : lm.emailBox = true)
    (hpw : lm.passwordBtn = true) (hbox : pm.passwordBox = true)
    (hsub : pm.signInBtn = true) :
    (couponVerifyLoop obs).2.1 ≤ 5 ∧
    ((couponVerifyLoop obs).1 = true
      ↔ ∃ j, j < 5 ∧ verifyAccepted (obs j) = true) ∧
    (∀ w ∈ (couponVerifyLoop obs).2.2, w = 1000) ∧
    (verifyAccepted o = true
      ↔ (pendingUrl o.url = false ∧ o.header = some ⟨false⟩)) ∧
    (discoveryVerify o = true ↔ pendingUrl o.url = false) ∧
    ((couponVerifyLoop obs).1 = false →
      (couponLoginFlow page creds).1 = false ∧
      Act.logError "Failed to verify login completion after maximum retries"
        ∈ (couponLoginFlow page creds).2) ∧
    ((couponVerifyLoop obs).1 = true → (couponLoginFlow page creds).1 = true) := by
  subst hpage
  refine ⟨verifyGo_attempts_le obs 5 0, ?_, fun w hw => verifyGo_waits obs 5 0 w hw,
    verifyAccepted_iff o, ?_, ?_, ?_⟩
  · simpa [couponVerifyLoop] using verifyGo_true_iff obs 5 0
  · cases hp : pendingUrl o.url <;> simp [discoveryVerify, hp]
  · intro hfail
    cases welcome with
    | none => simp [couponLoginFlow, hbtn, hemail, hpw, hbox, hsub, hfail]
    | some w =>
      cases hw2 : w.signInBtn <;>
        simp [couponLoginFlow, hbtn, hemail, hpw, hbox, hsub, hfail, hw2]
  · intro hok
    cases welcome with
    | none => simp [couponLoginFlow, hbtn, hemail, hpw, hbox, hsub, hok]
    | some w =>
      cases hw2 : w.signInBtn <;>
        simp [couponLoginFlow, hbtn, hemail, hpw, hbox, hsub, hok, hw2]

/-- The scripted observations of the C8 witness run: attempt 0 still sits on
the sign-in URL, attempt 1 sees a non-login URL and a header without the
sign-in affordance. -/
def c8obs : Nat → VerifyObs := fun j =>
  if j = 0 then ⟨"https://www.kroger.com/signin", none⟩
  else ⟨"https://www.kroger.com/home", some ⟨false⟩⟩

theorem post_submit_verification_witness :
    (couponVerifyLoop c8obs).2.1 ≤ 5 ∧
    (couponVerifyLoop c8obs).1 = true ∧
    (couponLoginFlow ⟨some ⟨true⟩, none, some ⟨true, true⟩, some ⟨true, true⟩, c8obs⟩
      ⟨none, some "u", "pw"⟩).1 = true := by
  have h := post_submit_verification c8obs ⟨"https://www.kroger.com/home", some ⟨false⟩⟩
    ⟨true⟩ none ⟨true, true⟩ ⟨true, true⟩ ⟨none, some "u", "pw"⟩ _ rfl rfl rfl rfl rfl rfl
  have hloop : (couponVerifyLoop c8obs).1 = true :=
    h.2.1.mpr ⟨1, by omega, by decide⟩
  exact ⟨h.1, hloop, h.2.2.2.2.2.2 hloop⟩

/-! ## Clip loop and result assembly (C9) -/

/-- The scraped facts of one offer (`COUPON_PAGE_QUERY`'s `offer` block),
copied verbatim into the result on a verified clip. -/
structure CouponOffer where
  title : String
  description : String
  savings : String
  expiration : String
  terms : String
deriving DecidableEq

/-- One offer as the clip loop observes it: its facts, whether a clip button
is present (`clip_btn and clip_btn.exists` collapsed), whether it is
already marked clipped, and whether the post-click re-query finds the
same-titled offer marked clipped (the verification outcome). -/
structure CouponObs where
  offer : CouponOffer
  clipBtnExists : Bool
  isClipped : Bool
  verifiesClipped : Bool
deriving DecidableEq

/-- One page state of the clip loop: the offers the query returns and
whether a load-more affordance is present. -/
structure CouponPage where
  coupons : List CouponObs
  loadMore : Bool
deriving DecidableEq

/-- Per-offer outcome of the loop body of `_clip_coupons`: an offer is
recorded exactly when its clip button exists, it is not already clipped,
and the post-click verification sees it clipped; otherwise it is skipped —
logged and dropped, never retried and never surfaced. -/
def clipSelect (c : CouponObs) : Option CouponOffer :=
  if c.clipBtnExists && !c.isClipped && c.verifiesClipped then some c.offer else none

def clipPageOffers (cs : List CouponObs) : List CouponOffer := cs.filterMap clipSelect

/-- The `while True` pagination loop of `_clip_coupons` over the successive
page states: stop on an empty offer list, follow load-more when present. -/
def clipLoop : List CouponPage → List CouponOffer
  | [] => []
  | p :: rest =>
    if p.coupons.isEmpty then []
    else clipPageOffers p.coupons ++ (if p.loadMore then clipLoop rest else [])

/-- The dictionary `clip_coupons` returns. -/
structure ClipResult where
  success : Bool
  store : String
  clipped : List CouponOffer
  error : Option String
deriving DecidableEq

/-- The outcomes of the structural steps of one `clip_coupons` run:
whether a cached session was loaded and re-validated, whether the login
flow (run only when no session survived) succeeded, whether navigation to
the coupon section succeeded, and the successive page states the clip loop
observes. -/
structure ClipScenario where
  sessionLoaded : Bool
  loginOk : Bool
  navOk : Bool
  pages : List CouponPage

/-- `DynamicCouponService.clip_coupons` result assembly (lines 373-499):
login failure and navigation failure set the top-level error and abort;
otherwise the clipped list is the clip loop's output and `success` is
`len(clipped_coupons) > 0`, with no top-level error. -/
def clipCoupons (storeName : String) (sc : ClipScenario) : ClipResult :=
  if !sc.sessionLoaded && !sc.loginOk then
    { success := false, store := storeName, clipped := [], error := some "Failed to login" }
  else if !sc.navOk then
    { success := false, store := storeName, clipped := [],
      error := some "Failed to navigate to coupons section" }
  else
    let clipped := clipLoop sc.pages
    { success := decide (0 < clipped.length), store := storeName,
      clipped := clipped, error := none }

/-- C9.  In every clip run that passes login (via a surviving session or a
fresh login) and navigation, the top-level error is empty, the result's
clipped list is exactly the clip loop's verified captures, and `success`
holds iff at least one offer was clipped and verified; an offer enters a
page's captures iff its clip button exists, it was unclipped, and its clip
verified; and whatever the scenario, a non-empty top-level error implies
login or navigation failed. -/
theorem clip_success_iff_some_verified (storeName : String) (sc : ClipScenario)
    (hlogin : (sc.sessionLoaded || sc.loginOk) = true) (hnav : sc.navOk = true) :
    (clipCoupons storeName sc).error = none ∧
    (clipCoupons storeName sc).clipped = clipLoop sc.pages ∧
    ((clipCoupons storeName sc).success = true ↔ clipLoop sc.pages ≠ []) ∧
    (∀ (cs : List CouponObs) (o : CouponOffer),
      o ∈ clipPageOffers cs ↔ ∃ c, c ∈ cs ∧
        (c.clipBtnExists && !c.isClipped && c.verifiesClipped) = true ∧ c.offer = o) ∧
    (∀ sc2 : ClipScenario, (clipCoupons storeName sc2).error ≠ none →
      (sc2.sessionLoaded || sc2.loginOk) = false ∨ sc2.navOk = false) := by
  have hcond : (!sc.sessionLoaded && !sc.loginOk) = false := by
    cases hs : sc.sessionLoaded <;> cases hl : sc.loginOk <;>
      simp_all
  have hres : clipCoupons storeName sc
      = { success := decide (0 < (clipLoop sc.pages).length), store := storeName,
          clipped := clipLoop sc.pages, error := none } := by
    simp [clipCoupons, hcond, hnav]
  refine ⟨by rw [hres], by rw [hres], ?_, ?_, ?_⟩
  · rw [hres]
    cases hq : clipLoop sc.pages with
    | nil => simp [hq]
    | cons a b => simp [hq]
  · intro cs o
    simp only [clipPageOffers, List.mem_filterMap, clipSelect]
    constructor
    · rintro ⟨c, hc, hsel⟩
      by_cases hcond2 : (c.clipBtnExists && !c.isClipped && c.verifiesClipped) = true
      · rw [if_pos hcond2] at hsel
        exact ⟨c, hc, hcond2, by simpa using hsel⟩
      · rw [if_neg hcond2] at hsel
        cases hsel
    · rintro ⟨c, hc, hcond2, ho⟩
      exact ⟨c, hc, by rw [if_pos hcond2, ho]⟩
  · intro sc2 herr
    by_cases h1 : (sc2.sessionLoaded || sc2.loginOk) = true
    · by_cases h2 : sc2.navOk = true
      · exfalso
        have hcond2 : (!sc2.sessionLoaded && !sc2.loginOk) = false := by
          cases hs : sc2.sessionLoaded <;> cases hl : sc2.loginOk <;> simp_all
        simp [clipCoupons, hcond2, h2] at herr
      · right
        simpa using h2
    · left
      simpa using h1

/-- The spec's end-to-end example: five offers, two of which fail
verification after the click. -/
def c9pages : List CouponPage :=
  [⟨[⟨⟨"o1", "d1", "s1", "e1", "t1"⟩, true, false, true⟩,
     ⟨⟨"o2", "d2", "s2", "e2", "t2"⟩, true, false, false⟩,
     ⟨⟨"o3", "d3", "s3", "e3", "t3"⟩, true, false, true⟩,
     ⟨⟨"o4", "d4", "s4", "e4", "t4"⟩, true, false, false⟩,
     ⟨⟨"o5", "d5", "s5", "e5", "t5"⟩, true, false, true⟩], false⟩]

theorem clip_success_iff_some_verified_witness :
    (clipCoupons "Acme Grocery" ⟨false, true, true, c9pages⟩).success = true ∧
    (clipCoupons "Acme Grocery" ⟨false, true, true, c9pages⟩).clipped.length = 3 ∧
    (clipCoupons "Acme Grocery" ⟨false, true, true, c9pages⟩).error = none := by
  have h := clip_success_iff_some_verified "Acme Grocery" ⟨false, true, true, c9pages⟩
    rfl rfl
  refine ⟨h.2.2.1.mpr (by decide), ?_, h.1⟩
  rw [h.2.1]
  decide

/-! ## Store analysis and its log trace (C1) -/

def upChar (c : Char) : Char :=
  if 'a' ≤ c ∧ c ≤ 'z' then Char.ofNat (c.toNat - 32) else c

/-- Python `str.title()` restricted to ASCII: the first letter of each
alphabetic run uppercased, the rest lowercased. -/
def titleCaseL : Bool → List Char → List Char
  | _, [] => []
  | prevAlpha, c :: t =>
    (if c.isAlpha then (if prevAlpha then lowChar c else upChar c) else c)
      :: titleCaseL c.isAlpha t

def titleCase (s : String) : String := String.mk (titleCaseL false s.data)

def wordsAux : List Char → List Char → List (List Char)
  | cur, [] => if cur.isEmpty then [] else [cur.reverse]
  | cur, c :: t =>
    if c.isWhitespace then
      (if cur.isEmpty then wordsAux [] t else cur.reverse :: wordsAux [] t)
    else wordsAux (c :: cur) t

/-- `" ".join(s.split())` — whitespace normalization of the store name. -/
def normalizeWs (s : String) : String :=
  String.intercalate " " ((wordsAux [] s.data).map String.mk)

/-- `if store_name.endswith(suffix): store_name = store_name[:-len(suffix)]`. -/
def stripSuffix (name suffix : String) : String :=
  if suffix.data.length ≤ name.data.length ∧
      name.data.drop (name.data.length - suffix.data.length) = suffix.data then
    String.mk (name.data.take (name.data.length - suffix.data.length))
  else name

/-- The suffix table of `analyze_store`, applied in order. -/
def titleSuffixes : List String :=
  ["| Official Site", "| Home", "| Online Grocery Shopping",
   "- Official Site", "- Home", "- Online Grocery Shopping"]

def stripTitleSuffixes (name : String) : String := titleSuffixes.foldl stripSuffix name

def splitSchemeAux : List Char → Option (List Char × List Char)
  | [] => none
  | c :: t =>
    if leadsWith [':', '/', '/'] (c :: t) then some ([], (c :: t).drop 3)
    else
      match splitSchemeAux t with
      | some r => some (c :: r.1, r.2)
      | none => none

/-- `urlparse(url).scheme` for the absolute `http(s)` URLs the service
receives. -/
def urlScheme (u : String) : String :=
  match splitSchemeAux u.data with
  | some r => String.mk r.1
  | none => ""

/-- `urlparse(url).netloc` for the URLs the service receives (no
userinfo/query/fragment, as validated by `HttpUrl`). -/
def urlNetloc (u : String) : String :=
  match splitSchemeAux u.data with
  | some r => String.mk (r.2.takeWhile (fun c => !(c == '/')))
  | none => ""

/-- `netloc.split(".")[0]`. -/
def domainLabel (netloc : String) : String :=
  String.mk (netloc.data.takeWhile (fun c => !(c == '.')))

/-- `urljoin(base_url, href)` for an origin-only base, the one shape
`analyze_store` builds (`scheme://netloc`). -/
def urlJoin (base rel : String) : String :=
  if leadsWith ['/'] rel.data then base ++ rel else base ++ "/" ++ rel

/-- What `analyze_store` observes on the scripted page: whether the
`STORE_INFO_QUERY` header was found, the page title's text (absent when the
element is missing or `text_content` raised), and the sign-in affordance's
`href` (absent when the element is missing or `get_attribute` raised). -/
structure DiscoveryPageObs where
  headerFound : Bool
  title : Option String
  signInHref : Option String
deriving DecidableEq

/-- `StoreConfig` of `app/schemas/store.py`. -/
structure StoreConfig where
  id : Option Nat
  name : String
  base_url : String
  login_url : String
  credentials : Option StoreCredentials
deriving DecidableEq

def optRepr : Option String → String
  | none => "None"
  | some v => v

/-- Model of the pydantic `__repr__` of `StoreCredentials`, as interpolated
into the f-string of `store_discovery.py` line 196: every field, the
password included, in clear text (value quoting omitted — only the
dependence of the text on the field values matters). -/
def credsRepr (c : StoreCredentials) : String :=
  "username=" ++ optRepr c.username ++ " email=" ++ optRepr c.email
    ++ " password=" ++ c.password

/-- `StoreDiscoveryService.analyze_store` on a scripted page: the returned
config and the emitted log lines of the non-exception paths, in program
order. -/
def analyzeStore (url : String) (creds : StoreCredentials)
    (obs : DiscoveryPageObs) : Option StoreConfig × List String :=
  let logs0 := ["Browser launched and page wrapped with AgentQL",
                "Attempting to navigate to URL: " ++ url,
                "Page loaded successfully",
                "Found store elements"]
  if !obs.headerFound then (none, logs0 ++ ["Could not find header elements"])
  else
    let parsedName := match obs.title with
      | some t => normalizeWs (stripTitleSuffixes t)
      | none => ""
    let storeName :=
      if parsedName = "" then titleCase (domainLabel (urlNetloc url)) else parsedName
    let logs1 := logs0 ++
      (if parsedName = "" then ["Using fallback store name: " ++ storeName] else [])
    let baseUrl := urlScheme url ++ "://" ++ urlNetloc url
    let domain := lowerStr (urlNetloc url)
    let hrefUrl := match obs.signInHref with
      | some h =>
        if h.data.isEmpty then none
        else some (if leadsWith ['h', 't', 't', 'p'] h.data then h else urlJoin baseUrl h)
      | none => none
    match hrefUrl with
    | some lu =>
      (some ⟨none, storeName, baseUrl, lu, some creds⟩,
       logs1 ++ ["Final login URL: " ++ lu,
                 "Created store config with credentials: " ++ credsRepr creds])
    | none =>
      let lu := if containsSub domain "albertsons" then baseUrl ++ "/account/sign-in"
                else baseUrl ++ "/signin"
      (some ⟨none, storeName, baseUrl, lu, some creds⟩,
       logs1 ++ (if containsSub domain "albertsons" then ["Using Albertsons-specific login URL"]
                 else ["Using default fallback login URL"])
             ++ ["Final login URL: " ++ lu,
                 "Created store config with credentials: " ++ credsRepr creds])

set_option maxRecDepth 2000 in
/-- C1 evaluation at the failing input.  Two discovery runs identical except
for the supplied password emit different log traces, and the run's log
contains a line carrying the password in clear text: `analyze_store` logs
the credentials object at `store_discovery.py` line 196, so the emitted log
lines are not independent of the credential values. -/
theorem analyze_store_logs_credentials :
    (analyzeStore "https://www.kroger.com"
        ⟨none, some "user@example.com", "hunter2"⟩
        ⟨true, some "Kroger | Official Site", some "/signin"⟩).2
      ≠ (analyzeStore "https://www.kroger.com"
          ⟨none, some "user@example.com", "hunter3"⟩
          ⟨true, some "Kroger | Official Site", some "/signin"⟩).2 ∧
    ("Created store config with credentials: "
        ++ credsRepr ⟨none, some "user@example.com", "hunter2"⟩)
      ∈ (analyzeStore "https://www.kroger.com"
          ⟨none, some "user@example.com", "hunter2"⟩
          ⟨true, some "Kroger | Official Site", some "/signin"⟩).2 ∧
    containsSub ("Created store config with credentials: "
        ++ credsRepr ⟨none, some "user@example.com", "hunter2"⟩) "hunter2" = true := by
  refine ⟨by decide, by decide, by decide⟩

end CouponClipper
